import Mathlib

/- Verification of the SWE-bench harness driver scripts
   (scripts/swe-bench-full.py and scripts/swe-bench-run.py).

   The scripts are shallowly embedded: text is `List Char`, Python dict
   environments are functions `List Char → Option (List Char)`, and the
   outcome of each external subprocess (git, the agent binary) is an
   oracle input: `Except String Int` is a subprocess call that either
   raised an exception (the `String` message, e.g. `TimeoutExpired`) or
   returned an exit code. -/

namespace Harness

/-! Python string primitives over `List Char`. -/

/-- Python `str.strip()`: drop whitespace from both ends. -/
def pyStrip (s : List Char) : List Char :=
  ((s.dropWhile Char.isWhitespace).reverse.dropWhile Char.isWhitespace).reverse

/-- Python `haystack.index(needle)` / `needle in haystack`: index of the
first occurrence of `needle` in the haystack, if any. -/
def findSub? (needle : List Char) : List Char → Option Nat
  | [] => if needle.isPrefixOf ([] : List Char) then some 0 else none
  | c :: t =>
    if needle.isPrefixOf (c :: t) then some 0
    else (findSub? needle t).map (· + 1)

/-- Python slice `s[a:b]` for nonnegative bounds (empty when `a ≥ b`). -/
def pySlice (s : List Char) (a b : Nat) : List Char :=
  (s.take b).drop a

/-- Python `s.split(sep_newline)`: split on a newline character; the empty
string yields one empty field, like Python. -/
def splitLines : List Char → List (List Char)
  | [] => [[]]
  | c :: t =>
    let r := splitLines t
    if c = '\n' then [] :: r
    else
      match r with
      | [] => [[c]]
      | l :: ls => (c :: l) :: ls

/-- The agent subprocess either completes with captured stdout, stderr and
a return code, or hits the wall-clock timeout (`subprocess.TimeoutExpired`). -/
inductive AgentOutcome where
  | completed (stdout stderr : List Char) (returncode : Int)
  | timedOut
deriving DecidableEq

end Harness

namespace SweBenchFull

open Harness

deriving instance DecidableEq for Except

/-- Oracle for the git subprocess calls made by `setup_repo` in
scripts/swe-bench-full.py: whether the repo path already exists on disk,
and for each git invocation, either a raised exception (message) or an
exit code. -/
structure GitOracle where
  pathExists : Bool
  shallowClone : Except String Int
  fullClone : Except String Int
  checkoutCommit : Except String Int
  checkoutDot : Except String Int
  cleanFd : Except String Int
deriving DecidableEq

/-- scripts/swe-bench-full.py `setup_repo` (lines 20-45): if the target
path does not exist, shallow clone; on a nonzero exit code, retry with a
full clone whose result is discarded.  Then `git checkout commit`,
`git checkout -- .`, `git clean -fd`, each result discarded.  Returns the
repo path; an `Except.error` is a raised exception propagating to the
caller. -/
def setup_repo (g : GitOracle) (repoPath : String) : Except String String := do
  if !g.pathExists then
    let rc ← g.shallowClone
    if rc ≠ 0 then
      let _ ← g.fullClone
      pure ()
  let _ ← g.checkoutCommit
  let _ ← g.checkoutDot
  let _ ← g.cleanFd
  pure repoPath

/-- The result dict built by `run_instance` in scripts/swe-bench-full.py:
the clone-failure dict (line 56) carries only `id`, `status`, `error`; the
completed dict (lines 95-102) carries `id`, `status`, `patch_size`,
`mode`, `time`, `exit_code`.  A missing key is `none`.  Only the presence
of the elapsed-seconds `time` key is modelled (`Option Unit`), not its
wall-clock value; its presence is what the progress print in `main`
depends on. -/
structure RunResult where
  id : String
  status : String
  error : Option String
  patch_size : Option Nat
  mode : Option String
  time : Option Unit
  exit_code : Option Int
deriving DecidableEq

/-- Files written under the results directory for one instance. -/
structure Artifacts where
  patchFile : Option (List Char)
  logFile : Option (List Char)
deriving DecidableEq

/-- `output = r.stdout + r.stderr`, or the literal `"TIMEOUT"` when the
agent subprocess raised `TimeoutExpired` (lines 75-78). -/
def combined_output : AgentOutcome → List Char
  | AgentOutcome.completed out err _ => out ++ err
  | AgentOutcome.timedOut => "TIMEOUT".data

/-- `exit_code = r.returncode`, or the sentinel `-1` on timeout
(lines 76-79). -/
def agent_exit : AgentOutcome → Int
  | AgentOutcome.completed _ _ rc => rc
  | AgentOutcome.timedOut => -1

/-- Mode detection loop (lines 88-93): scan each output line; a line
containing "Phase 1:" sets the mode to v3-scout, else a line containing
"Falling back to agent" sets v3-fallback; default "unknown". -/
def detect_mode (output : List Char) : String :=
  (splitLines output).foldl
    (fun m line =>
      if (findSub? "Phase 1:".data line).isSome then "v3-scout"
      else if (findSub? "Falling back to agent".data line).isSome then "v3-fallback"
      else m)
    "unknown"

/-- scripts/swe-bench-full.py `run_instance` (lines 47-117), as a function
of the instance id, the git oracle, the agent outcome and the stdout of
`git diff` run in the workspace.  On a raised clone exception it returns
the CLONE_FAILED dict and writes no files; otherwise the patch is the
trimmed diff, status is "PATCH" exactly when the patch is truthy and
longer than 10, the patch file is written in that same case, and the log
file is always written with the captured output. -/
def run_instance (iid : String) (g : GitOracle) (repoPath : String)
    (agent : AgentOutcome) (diffStdout : List Char) : RunResult × Artifacts :=
  match setup_repo g repoPath with
  | Except.error e =>
    (⟨iid, "CLONE_FAILED", some e, none, none, none, none⟩, ⟨none, none⟩)
  | Except.ok _ =>
    let output := combined_output agent
    let patch := pyStrip diffStdout
    (⟨iid,
      if patch ≠ [] ∧ 10 < patch.length then "PATCH" else "NO_PATCH",
      none,
      some (if patch ≠ [] then patch.length else 0),
      some (detect_mode output),
      some (),
      some (agent_exit agent)⟩,
     ⟨if patch ≠ [] ∧ 10 < patch.length then some patch else none,
      some output⟩)

/-- One instance of the dataset together with the behavior of its external
world (git, agent, workspace diff). -/
structure InstanceRun where
  iid : String
  git : GitOracle
  repoPath : String
  agent : AgentOutcome
  diff : List Char
deriving DecidableEq

/-- Pipeline artifact/result state: which instance ids have a
`logs/<iid>.log` file, the lines of `results.jsonl`, and a ghost counter
of how many times `run_instance` was invoked. -/
structure PipelineState where
  logIds : List String
  resultsLog : List RunResult
  invocations : Nat
deriving DecidableEq

/-- One iteration of the `main` loop (lines 145-166): skip the instance if
its log file exists, otherwise invoke `run_instance`.  The progress print
at line 159 reads `result['time']` and `result['mode']`; the CLONE_FAILED
dict lacks both keys, so on a clone failure that print raises an uncaught
KeyError: the process dies before the `results.jsonl` append at lines
162-163, leaving the on-disk state as `run_instance` left it
(`Except.error`).  Otherwise the result is appended to `results.jsonl`
and the loop continues (`Except.ok`). -/
def step (st : PipelineState) (b : InstanceRun) :
    Except PipelineState PipelineState :=
  if b.iid ∈ st.logIds then Except.ok st
  else
    let ra := run_instance b.iid b.git b.repoPath b.agent b.diff
    let logIds :=
      match ra.2.logFile with
      | some _ => b.iid :: st.logIds
      | none => st.logIds
    if ra.1.time = none then Except.error ⟨logIds, st.resultsLog, st.invocations + 1⟩
    else Except.ok ⟨logIds, st.resultsLog ++ [ra.1], st.invocations + 1⟩

/-- The `main` loop over the selected instances: sequential, and cut short
with the crash-time on-disk state when an iteration raises. -/
def runPipeline (st : PipelineState) :
    List InstanceRun → Except PipelineState PipelineState
  | [] => Except.ok st
  | b :: rest =>
    match step st b with
    | Except.ok st1 => runPipeline st1 rest
    | Except.error st1 => Except.error st1

/-- The state before the first run: no artifacts, empty results log. -/
def initState : PipelineState := ⟨[], [], 0⟩

/-- A run in which every git subprocess succeeds with exit code 0 and the
repo path already exists. -/
def gOk : GitOracle := ⟨true, Except.ok 0, Except.ok 0, Except.ok 0, Except.ok 0, Except.ok 0⟩

/-- A run in which the shallow clone raises (e.g. `TimeoutExpired`). -/
def gRaise : GitOracle :=
  ⟨false, Except.error "TimeoutExpired", Except.ok 0, Except.ok 0, Except.ok 0, Except.ok 0⟩

/-- A run in which both clone attempts fail with nonzero exit codes but no
subprocess raises, and the later git commands also fail by exit code. -/
def gExitFail : GitOracle :=
  ⟨false, Except.ok 1, Except.ok 128, Except.ok 1, Except.ok 1, Except.ok 1⟩

end SweBenchFull

namespace GitModel

/- Semantic model of the three normalization commands run by `setup_repo`
(scripts/swe-bench-full.py lines 40-43) on the working tree:
`git checkout <commit>`, `git checkout -- .`, `git clean -fd`.
A repository maps a commit hash to its committed tree (a list of
path/content pairs) when the commit is present; the clone may hold fewer
commits than the real repository (shallow history).  Each command's exit
code is discarded by the script, so a failing command is a no-op here. -/

/-- A commit-indexed store of committed trees. -/
def Repo := String → Option (List (String × String))

/-- Working tree state: current HEAD, tracked file contents, untracked
paths present on disk. -/
structure WorkTree where
  head : String
  tracked : List (String × String)
  untracked : List String
deriving DecidableEq

/-- `git checkout <commit>`: moves HEAD when the commit exists in the
clone; when it does not, the command fails and — its exit code being
discarded — leaves the working tree unchanged. -/
def checkout_commit (clone : Repo) (c : String) (w : WorkTree) : WorkTree :=
  match clone c with
  | some _ => ⟨c, w.tracked, w.untracked⟩
  | none => w

/-- `git checkout -- .`: restores every tracked file to its content in the
tree of the current HEAD, discarding local modifications. -/
def checkout_dot (clone : Repo) (w : WorkTree) : WorkTree :=
  match clone w.head with
  | some t => ⟨w.head, t, w.untracked⟩
  | none => w

/-- `git clean -fd`: removes untracked files and directories. -/
def clean_fd (w : WorkTree) : WorkTree := ⟨w.head, w.tracked, []⟩

/-- The normalization sequence of `setup_repo`, lines 41-43. -/
def normalize (clone : Repo) (c : String) (w : WorkTree) : WorkTree :=
  clean_fd (checkout_dot clone (checkout_commit clone c w))

/-- A shallow clone holding only the commit "old". -/
def cexClone : Repo := fun x => if x = "old" then some [("f", "v0")] else none

/-- The real repository: "old" as in the clone, plus the instance's base
revision "target" with a different committed tree. -/
def cexRepo : Repo := fun x =>
  if x = "old" then some [("f", "v0")]
  else if x = "target" then some [("f", "v1")] else none

/-- A dirty pre-existing workspace from a prior attempt. -/
def cexDirty : WorkTree := ⟨"old", [("f", "edited by prior attempt")], ["stray.pyc"]⟩

end GitModel

namespace SweBenchRun

open Harness

/-- The opening delimiter of a patch block in the agent output. -/
def patchOpen : List Char := "--- PATCH ---".data

/-- The closing delimiter of a patch block in the agent output. -/
def patchClose : List Char := "--- END PATCH ---".data

/-- scripts/swe-bench-run.py lines 93-105: if the opening delimiter occurs
in the output, slice from just after its first occurrence up to the first
occurrence of the closing delimiter (or the end of the output) and strip;
if the result is falsy (empty), fall back to the stripped working-tree
diff. -/
def extract_patch (output diff : List Char) : List Char :=
  let p : List Char :=
    match findSub? patchOpen output with
    | some i =>
      pySlice output (i + patchOpen.length)
        (match findSub? patchClose output with
         | some j => j
         | none => output.length) |> pyStrip
    | none => []
  if p = [] then pyStrip diff else p

/-- The trimmed text between the delimiters, when an opening delimiter is
present: the delimited content the specification says the extractor must
prefer. -/
def delim_content (output : List Char) : Option (List Char) :=
  match findSub? patchOpen output with
  | some i =>
    some (pyStrip (pySlice output (i + patchOpen.length)
      (match findSub? patchClose output with
       | some j => j
       | none => output.length)))
  | none => none

/-- A Python-dict environment: keys to values. -/
abbrev EnvD := List Char → Option (List Char)

/-- Python `env.pop(k, None)`. -/
def dpop (d : EnvD) (k : List Char) : EnvD :=
  fun x => if x = k then none else d x

/-- Python `env[k] = v`. -/
def dset (d : EnvD) (k v : List Char) : EnvD :=
  fun x => if x = k then some v else d x

/-- The credential variable stripped by scripts/swe-bench-full.py. -/
def anthropicKey : List Char := "ANTHROPIC_API_KEY".data

/-- scripts/swe-bench-full.py lines 65-66: the child environment is a copy
of the parent environment with ANTHROPIC_API_KEY popped. -/
def child_env_full (parent : EnvD) : EnvD := dpop parent anthropicKey

/-- scripts/swe-bench-run.py lines 60-64: one line of the `.env` file —
strip it; if nonempty, not a `#` comment and containing `=`, split on the
first `=` and assign. -/
def apply_env_line (d : EnvD) (line : List Char) : EnvD :=
  let s := pyStrip line
  if s ≠ [] ∧ s.head? ≠ some '#' ∧ '=' ∈ s then
    dset d (s.takeWhile (fun ch => ch ≠ '=')) ((s.dropWhile (fun ch => ch ≠ '=')).tail)
  else d

/-- scripts/swe-bench-run.py lines 55-64: the child environment is a copy
of the parent environment; when the optional `.env` file exists, each of
its lines is applied in order.  Nothing is ever removed from the parent
environment in this mode. -/
def child_env_run (parent : EnvD) (envFile : Option (List (List Char))) : EnvD :=
  match envFile with
  | none => parent
  | some lines => lines.foldl apply_env_line parent

/-- A parent environment holding a live credential. -/
def secretParent : EnvD := dset (fun _ => none) anthropicKey "sk-secret".data

/-- A SWE-bench prediction record as built by `run_instance` in
scripts/swe-bench-run.py (lines 45 and 123-127). -/
structure Prediction where
  instance_id : String
  model_name_or_path : String
  model_patch : List Char
deriving DecidableEq

/-- scripts/swe-bench-run.py `run_instance` (lines 20-127), as a function
of the instance id, the clone's exit code, the agent outcome and the
stdout of `git diff` in the workspace.  A nonzero clone exit code returns
the record with an empty patch immediately; otherwise patch extraction
runs on the agent's stdout (empty on timeout) with the working-tree diff
as fallback. -/
def run_instance (iid : String) (cloneReturncode : Int)
    (agent : AgentOutcome) (diff : List Char) : Prediction :=
  if cloneReturncode ≠ 0 then ⟨iid, "cognos-agent", []⟩
  else
    let output :=
      match agent with
      | AgentOutcome.completed out _ _ => out
      | AgentOutcome.timedOut => []
    ⟨iid, "cognos-agent", extract_patch output diff⟩

/-- One instance of the dataset with the behavior of its external world
for the minimal variant. -/
structure RBehavior where
  iid : String
  cloneReturncode : Int
  agent : AgentOutcome
  diff : List Char
deriving DecidableEq

/-- The `main` loop of scripts/swe-bench-run.py (lines 188-194): run each
selected instance and append its prediction record to the output file. -/
def run_loop : List RBehavior → List Prediction → List Prediction
  | [], file => file
  | b :: rest, file =>
    run_loop rest (file ++ [run_instance b.iid b.cloneReturncode b.agent b.diff])

end SweBenchRun

namespace SweBenchFull

open Harness

/-- Unfolding lemma: when provisioning returns a path, `run_instance`
produces the completed result and artifacts. -/
theorem run_instance_ok (iid : String) (g : GitOracle) (rp p : String)
    (agent : AgentOutcome) (diff : List Char)
    (h : setup_repo g rp = Except.ok p) :
    run_instance iid g rp agent diff =
      (⟨iid,
        if pyStrip diff ≠ [] ∧ 10 < (pyStrip diff).length then "PATCH" else "NO_PATCH",
        none,
        some (if pyStrip diff ≠ [] then (pyStrip diff).length else 0),
        some (detect_mode (combined_output agent)),
        some (),
        some (agent_exit agent)⟩,
       ⟨if pyStrip diff ≠ [] ∧ 10 < (pyStrip diff).length then some (pyStrip diff) else none,
        some (combined_output agent)⟩) := by
  unfold run_instance
  rw [h]

/-- Unfolding lemma: when provisioning raises, `run_instance` returns the
CLONE_FAILED record and writes no files. -/
theorem run_instance_err (iid : String) (g : GitOracle) (rp e : String)
    (agent : AgentOutcome) (diff : List Char)
    (h : setup_repo g rp = Except.error e) :
    run_instance iid g rp agent diff =
      (⟨iid, "CLONE_FAILED", some e, none, none, none, none⟩, ⟨none, none⟩) := by
  unfold run_instance
  rw [h]

/-- A list longer than 10 elements is not empty. -/
theorem long_ne_nil (s : List Char) (h : 10 < s.length) : s ≠ [] := by
  intro he
  rw [he] at h
  simp at h

/-- C3 (confirmed): for every Run Result of a completed (non-clone-failed)
attempt, the status is "PATCH" iff the trimmed patch is strictly longer
than the 10-byte threshold; at or below the threshold the status is
"NO_PATCH" and no patch file is persisted. -/
theorem c3_patch_threshold (iid : String) (g : GitOracle) (rp p : String)
    (agent : AgentOutcome) (diff : List Char)
    (h : setup_repo g rp = Except.ok p) :
    ((run_instance iid g rp agent diff).1.status = "PATCH" ↔
      10 < (pyStrip diff).length) ∧
    ((pyStrip diff).length ≤ 10 →
      (run_instance iid g rp agent diff).1.status = "NO_PATCH" ∧
      (run_instance iid g rp agent diff).2.patchFile = none) := by
  rw [run_instance_ok iid g rp p agent diff h]
  by_cases hl : 10 < (pyStrip diff).length
  · have hne := long_ne_nil (pyStrip diff) hl
    refine ⟨by simp [hl, hne], fun hle => absurd hl (by omega)⟩
  · have hc : ¬(pyStrip diff ≠ [] ∧ 10 < (pyStrip diff).length) := fun hx => hl hx.2
    have hsn : ("NO_PATCH" : String) ≠ "PATCH" := by decide
    simp [hc, hl, hsn]

/-- C3 witness: a concrete completed attempt with an empty diff has status
NO_PATCH and no patch file. -/
theorem c3_patch_threshold_witness :
    (run_instance "w3" gOk "/tmp/swe-repos/w3" AgentOutcome.timedOut []).1.status =
      "NO_PATCH" ∧
    (run_instance "w3" gOk "/tmp/swe-repos/w3" AgentOutcome.timedOut []).2.patchFile =
      none :=
  (c3_patch_threshold "w3" gOk "/tmp/swe-repos/w3" "/tmp/swe-repos/w3"
    AgentOutcome.timedOut [] rfl).2 (by decide)

/-- C1 counterexample: a timed-out invocation with an empty working-tree
diff is recorded with status "NO_PATCH", not "TIMEOUT", even though the
exit code is -1 and the captured output is the literal "TIMEOUT". -/
theorem c1_counterexample :
    (run_instance "astropy__astropy-1" gOk "/tmp/r" AgentOutcome.timedOut []).1.status =
      "NO_PATCH" ∧
    (run_instance "astropy__astropy-1" gOk "/tmp/r" AgentOutcome.timedOut []).1.status ≠
      "TIMEOUT" ∧
    (run_instance "astropy__astropy-1" gOk "/tmp/r" AgentOutcome.timedOut []).1.exit_code =
      some (-1) ∧
    (run_instance "astropy__astropy-1" gOk "/tmp/r" AgentOutcome.timedOut []).2.logFile =
      some "TIMEOUT".data := by
  decide

/-- C1 (corrected): on a wall-clock timeout the recorded Run Result has
exit code -1 and captured combined output equal to the literal "TIMEOUT"
(also written to the log), but its status field is "PATCH" or "NO_PATCH"
according to the working-tree diff rule — the script never records a
status "TIMEOUT". -/
theorem c1_timeout_amended (iid : String) (g : GitOracle) (rp p : String)
    (diff : List Char) (h : setup_repo g rp = Except.ok p) :
    (run_instance iid g rp AgentOutcome.timedOut diff).1.exit_code = some (-1) ∧
    (run_instance iid g rp AgentOutcome.timedOut diff).2.logFile = some "TIMEOUT".data ∧
    ((run_instance iid g rp AgentOutcome.timedOut diff).1.status = "PATCH" ∨
     (run_instance iid g rp AgentOutcome.timedOut diff).1.status = "NO_PATCH") := by
  rw [run_instance_ok iid g rp p AgentOutcome.timedOut diff h]
  refine ⟨rfl, rfl, ?_⟩
  by_cases hc : pyStrip diff ≠ [] ∧ 10 < (pyStrip diff).length
  · left
    simp [hc]
  · right
    simp [hc]

/-- C1 witness: the amended claim at a concrete timed-out run. -/
theorem c1_timeout_amended_witness :
    (run_instance "w1" gOk "/tmp/r" AgentOutcome.timedOut ['x']).1.exit_code =
      some (-1) ∧
    (run_instance "w1" gOk "/tmp/r" AgentOutcome.timedOut ['x']).2.logFile =
      some "TIMEOUT".data ∧
    ((run_instance "w1" gOk "/tmp/r" AgentOutcome.timedOut ['x']).1.status = "PATCH" ∨
     (run_instance "w1" gOk "/tmp/r" AgentOutcome.timedOut ['x']).1.status = "NO_PATCH") :=
  c1_timeout_amended "w1" gOk "/tmp/r" "/tmp/r" ['x'] rfl

/-- C2 (code_bug): the claim — a CLONE_FAILED Run Result is recorded and
the pipeline continues — is the intent of the `except` handler at lines
53-56 and of the spec's failure policy, but the code slips: at the
failing input (an instance whose shallow clone raises), `run_instance`
returns the CLONE_FAILED dict without the `time` and `mode` keys, so the
progress print at line 159 raises an uncaught KeyError.  Evaluating the
embedding at that input: nothing is appended to `results.jsonl`, and a
healthy instance listed right after is never attempted (the invocation
counter stays at 1 and its id gains no artifact). -/
theorem c2_keyerror_crash :
    (run_instance "sympy__sympy-1" gRaise "/tmp/r" AgentOutcome.timedOut []).1 =
      ⟨"sympy__sympy-1", "CLONE_FAILED", some "TimeoutExpired",
        none, none, none, none⟩ ∧
    (run_instance "sympy__sympy-1" gRaise "/tmp/r" AgentOutcome.timedOut []).1.time =
      none ∧
    step initState ⟨"sympy__sympy-1", gRaise, "/tmp/r", AgentOutcome.timedOut, []⟩ =
      Except.error ⟨[], [], 1⟩ ∧
    runPipeline initState
      [⟨"sympy__sympy-1", gRaise, "/tmp/r", AgentOutcome.timedOut, []⟩,
       ⟨"requests-good", gOk, "/tmp/r2", AgentOutcome.timedOut, []⟩] =
      Except.error ⟨[], [], 1⟩ := by
  decide

/-- C9 (confirmed): `setup_repo` returns the workspace path whenever no
git subprocess raises, whatever the exit codes of the full-clone retry,
the checkout, the tracked-file reset and the clean; a CLONE_FAILED result
arises only from a raised exception, and a workspace whose checkout
silently failed is still handed to the agent (the attempt runs and its
log records the agent output). -/
theorem c9_exit_codes_ignored (iid : String) (g : GitOracle) (rp : String)
    (agent : AgentOutcome) (diff : List Char) (n1 n2 n3 n4 n5 : Int)
    (h1 : g.shallowClone = Except.ok n1) (h2 : g.fullClone = Except.ok n2)
    (h3 : g.checkoutCommit = Except.ok n3) (h4 : g.checkoutDot = Except.ok n4)
    (h5 : g.cleanFd = Except.ok n5) :
    setup_repo g rp = Except.ok rp ∧
    (run_instance iid g rp agent diff).1.status ≠ "CLONE_FAILED" ∧
    (run_instance iid g rp agent diff).2.logFile = some (combined_output agent) := by
  obtain ⟨pe, sc, fc, cc, cd, cf⟩ := g
  simp only at h1 h2 h3 h4 h5
  subst h1 h2 h3 h4 h5
  have hs : setup_repo ⟨pe, Except.ok n1, Except.ok n2, Except.ok n3,
      Except.ok n4, Except.ok n5⟩ rp = Except.ok rp := by
    cases pe <;> by_cases hn : n1 = 0 <;>
      simp [setup_repo, hn, Bind.bind, Except.bind, pure, Except.pure]
  refine ⟨hs, ?_, ?_⟩
  · rw [run_instance_ok _ _ _ rp _ _ hs]
    by_cases hc : pyStrip diff ≠ [] ∧ 10 < (pyStrip diff).length <;> simp [hc]
  · rw [run_instance_ok _ _ _ rp _ _ hs]

/-- A completed attempt (provisioning succeeded) appends its result, logs
its artifact, and continues: no KeyError is possible because the completed
result dict carries the `time` and `mode` keys; existing artifacts are
kept. -/
theorem step_ok_of_setup_ok (st : PipelineState) (b : InstanceRun) (p : String)
    (h : setup_repo b.git b.repoPath = Except.ok p) :
    ∃ st1, step st b = Except.ok st1 ∧ b.iid ∈ st1.logIds ∧
      ∀ x ∈ st.logIds, x ∈ st1.logIds := by
  by_cases hm : b.iid ∈ st.logIds
  · refine ⟨st, ?_, hm, fun x hx => hx⟩
    unfold step
    rw [if_pos hm]
  · refine ⟨⟨b.iid :: st.logIds,
      st.resultsLog ++ [(run_instance b.iid b.git b.repoPath b.agent b.diff).1],
      st.invocations + 1⟩, ?_, List.mem_cons_self _ _,
      fun x hx => List.mem_cons_of_mem _ hx⟩
    unfold step
    rw [if_neg hm, run_instance_ok b.iid b.git b.repoPath p b.agent b.diff h]
    rfl

/-- After a run in which every instance's provisioning succeeds, the run
completes without crashing and every instance has a log artifact; no
artifact is ever removed. -/
theorem pipeline_all_logged_ok :
    ∀ (bs : List InstanceRun) (st : PipelineState),
      (∀ b ∈ bs, ∃ p, setup_repo b.git b.repoPath = Except.ok p) →
      ∃ st1, runPipeline st bs = Except.ok st1 ∧
        (∀ b ∈ bs, b.iid ∈ st1.logIds) ∧ ∀ x ∈ st.logIds, x ∈ st1.logIds := by
  intro bs
  induction bs with
  | nil =>
    intro st h
    exact ⟨st, rfl, fun b hb => absurd hb (List.not_mem_nil b), fun x hx => hx⟩
  | cons b0 rest ih =>
    intro st h
    obtain ⟨p, hp⟩ := h b0 (List.mem_cons_self b0 rest)
    obtain ⟨st1, hstep, hb0, hmono1⟩ := step_ok_of_setup_ok st b0 p hp
    obtain ⟨st2, hrun, hall, hmono2⟩ :=
      ih st1 (fun c hc => h c (List.mem_cons_of_mem b0 hc))
    refine ⟨st2, ?_, ?_, fun x hx => hmono2 x (hmono1 x hx)⟩
    · simp only [runPipeline]
      rw [hstep]
      exact hrun
    · intro b hb
      rcases List.mem_cons.mp hb with hb1 | hb2
      · subst hb1
        exact hmono2 b.iid hb0
      · exact hall b hb2

/-- A run over instances whose log artifacts all exist completes and is a
no-op. -/
theorem pipeline_skip_all :
    ∀ (bs : List InstanceRun) (st : PipelineState),
      (∀ b ∈ bs, b.iid ∈ st.logIds) → runPipeline st bs = Except.ok st := by
  intro bs
  induction bs with
  | nil =>
    intro st h
    rfl
  | cons b0 rest ih =>
    intro st h
    have hstep : step st b0 = Except.ok st := by
      unfold step
      rw [if_pos (h b0 (List.mem_cons_self b0 rest))]
    simp only [runPipeline]
    rw [hstep]
    exact ih st (fun c hc => h c (List.mem_cons_of_mem b0 hc))

/-- C4 counterexample: one instance whose provisioning raises.  The first
run crashes at the progress print (uncaught KeyError on the missing
`time` key) with no artifact and no results line written — the on-disk
state after one invocation is ⟨[], [], 1⟩.  A second run over the same
instance set with those artifacts preserved is not a zero-invocation
skip: it re-provisions and re-invokes the instance (the invocation
counter reaches 2) and crashes again.  "Every instance attempted in the
first run is skipped" fails; the results log stays unchanged only because
nothing was ever appended to it. -/
theorem c4_counterexample :
    runPipeline initState
      [⟨"pytest-dev__pytest-1", gRaise, "/tmp/r", AgentOutcome.timedOut, []⟩] =
      Except.error ⟨[], [], 1⟩ ∧
    runPipeline ⟨[], [], 1⟩
      [⟨"pytest-dev__pytest-1", gRaise, "/tmp/r", AgentOutcome.timedOut, []⟩] =
      Except.error ⟨[], [], 2⟩ := by
  decide

/-- C4 (corrected): provided every instance of the set survives
provisioning on its first attempt, the first run completes and a second
run over the same instance set with all artifacts preserved performs zero
additional provisioning or agent invocations and returns the identical
final state — results log, artifacts and invocation counter unchanged.
An instance whose provisioning raises crashes the run before any artifact
or results line is written, and a restarted run re-attempts
(re-provisions) it. -/
theorem c4_resumable_amended (bs : List InstanceRun) (st1 : PipelineState)
    (h : ∀ b ∈ bs, ∃ p, setup_repo b.git b.repoPath = Except.ok p)
    (h1 : runPipeline initState bs = Except.ok st1) :
    runPipeline st1 bs = Except.ok st1 := by
  obtain ⟨st2, hrun, hall, _⟩ := pipeline_all_logged_ok bs initState h
  rw [h1] at hrun
  have hst : st1 = st2 := Except.ok.inj hrun
  subst hst
  exact pipeline_skip_all bs st1 hall

/-- C4 witness: a singleton instance set with successful provisioning; the
second run returns the first run's final state unchanged. -/
theorem c4_resumable_amended_witness :
    runPipeline
      ⟨["w4"],
        [⟨"w4", "NO_PATCH", none, some 0, some "unknown", some (), some (-1)⟩], 1⟩
      [⟨"w4", gOk, "/tmp/r", AgentOutcome.timedOut, []⟩] =
      Except.ok ⟨["w4"],
        [⟨"w4", "NO_PATCH", none, some 0, some "unknown", some (), some (-1)⟩], 1⟩ :=
  c4_resumable_amended [⟨"w4", gOk, "/tmp/r", AgentOutcome.timedOut, []⟩]
    ⟨["w4"],
      [⟨"w4", "NO_PATCH", none, some 0, some "unknown", some (), some (-1)⟩], 1⟩
    (fun b hb => by
      rw [List.mem_singleton] at hb
      subst hb
      exact ⟨"/tmp/r", rfl⟩)
    (by decide)

/-- C5 counterexample: an attempt that fails provisioning writes no log
file at all, although its Run Result (status CLONE_FAILED) is recorded. -/
theorem c5_counterexample :
    (run_instance "scikit-learn__scikit-learn-1" gRaise "/tmp/r"
      (AgentOutcome.completed ['h'] [] 0) ['d']).2.logFile = none ∧
    (run_instance "scikit-learn__scikit-learn-1" gRaise "/tmp/r"
      (AgentOutcome.completed ['h'] [] 0) ['d']).1.status = "CLONE_FAILED" := by
  decide

/-- C5 (corrected): for every attempted instance whose provisioning
succeeds (patch, no patch, or timeout), the log file is written with the
captured combined output, and the patch file is written exactly when the
trimmed diff passes the threshold; on a clone failure no log file (and no
patch file) is written. -/
theorem c5_artifacts_amended (iid : String) (g : GitOracle) (rp p : String)
    (agent : AgentOutcome) (diff : List Char)
    (h : setup_repo g rp = Except.ok p) :
    (run_instance iid g rp agent diff).2.logFile = some (combined_output agent) ∧
    (run_instance iid g rp agent diff).2.patchFile =
      (if pyStrip diff ≠ [] ∧ 10 < (pyStrip diff).length then some (pyStrip diff)
       else none) := by
  rw [run_instance_ok iid g rp p agent diff h]
  exact ⟨rfl, rfl⟩

/-- C5 witness: a concrete completed attempt writes its log. -/
theorem c5_artifacts_amended_witness :
    (run_instance "w5" gOk "/tmp/r" (AgentOutcome.completed ['o'] ['e'] 0)
      []).2.logFile = some (combined_output (AgentOutcome.completed ['o'] ['e'] 0)) ∧
    (run_instance "w5" gOk "/tmp/r" (AgentOutcome.completed ['o'] ['e'] 0)
      []).2.patchFile =
      (if pyStrip [] ≠ [] ∧ 10 < (pyStrip []).length then some (pyStrip []) else none) :=
  c5_artifacts_amended "w5" gOk "/tmp/r" "/tmp/r"
    (AgentOutcome.completed ['o'] ['e'] 0) [] rfl

/-- C9 witness: every git command fails by exit code, yet provisioning
returns the path and the agent is still invoked. -/
theorem c9_exit_codes_ignored_witness :
    setup_repo gExitFail "/tmp/r9" = Except.ok "/tmp/r9" ∧
    (run_instance "w9" gExitFail "/tmp/r9" (AgentOutcome.completed ['h'] ['e'] 2)
      []).1.status ≠ "CLONE_FAILED" ∧
    (run_instance "w9" gExitFail "/tmp/r9" (AgentOutcome.completed ['h'] ['e'] 2)
      []).2.logFile = some (combined_output (AgentOutcome.completed ['h'] ['e'] 2)) :=
  c9_exit_codes_ignored "w9" gExitFail "/tmp/r9"
    (AgentOutcome.completed ['h'] ['e'] 2) [] 1 128 1 1 1 rfl rfl rfl rfl rfl

end SweBenchFull

namespace GitModel

/-- C7 counterexample: the instance's base revision "target" is committed
in the real repository with tree [("f", "v1")], but lies outside the
shallow clone's history.  `git checkout target` fails, its exit code is
discarded, and normalization leaves the tracked state at the old HEAD's
tree [("f", "v0")] — not the revision's committed tree. -/
theorem c7_counterexample :
    cexRepo "target" = some [("f", "v1")] ∧
    cexClone "target" = none ∧
    normalize cexClone "target" cexDirty = ⟨"old", [("f", "v0")], []⟩ ∧
    ([("f", "v0")] : List (String × String)) ≠ [("f", "v1")] := by
  decide

/-- C7 (corrected): for every provision call whose checkout of the base
revision succeeds (the revision is present in the clone), the
normalization performed by `setup_repo` leaves the workspace at that
revision with tracked state exactly the revision's committed tree, local
modifications discarded and untracked files removed — even when the
directory pre-existed dirty from a prior attempt.  When the checkout
fails, its ignored exit code leaves the old tree in place. -/
theorem c7_reset_amended (clone : Repo) (c : String) (w : WorkTree)
    (t : List (String × String)) (h : clone c = some t) :
    normalize clone c w = ⟨c, t, []⟩ := by
  simp [normalize, checkout_commit, checkout_dot, clean_fd, h]

/-- C7 witness: a dirty pre-existing workspace is fully normalized when
the revision is in the clone. -/
theorem c7_reset_amended_witness :
    normalize (fun x => if x = "base" then some [("f", "v")] else none) "base"
      ⟨"old", [("f", "dirty")], ["junk"]⟩ = ⟨"base", [("f", "v")], []⟩ :=
  c7_reset_amended (fun x => if x = "base" then some [("f", "v")] else none) "base"
    ⟨"old", [("f", "dirty")], ["junk"]⟩ [("f", "v")] (by decide)

end GitModel

namespace SweBenchRun

open Harness

/-- C6 counterexample: an output holding a well-formed delimited patch
block whose content trims to the empty string.  The extractor does not
return the delimited content (empty); it silently falls back to the
working-tree diff, which differs. -/
theorem c6_counterexample :
    delim_content "--- PATCH ------ END PATCH ---".data = some [] ∧
    extract_patch "--- PATCH ------ END PATCH ---".data "the working tree diff".data =
      "the working tree diff".data ∧
    "the working tree diff".data ≠ ([] : List Char) := by
  decide

/-- C6 (corrected): whenever the agent output contains a delimited patch
block whose trimmed content is nonempty, the extracted patch equals that
trimmed delimited content, whatever the working-tree diff says; the
working-tree diff is consulted only when no block is found or the
delimited content trims to empty. -/
theorem c6_precedence_amended (output diff c : List Char)
    (h : delim_content output = some c) (hne : c ≠ []) :
    extract_patch output diff = c := by
  cases hf : findSub? patchOpen output with
  | none =>
    rw [delim_content, hf] at h
    exact absurd h (by simp)
  | some i =>
    rw [delim_content, hf] at h
    simp only [Option.some.injEq] at h
    simp only [extract_patch, hf]
    rw [h, if_neg hne]

/-- C6 witness: a concrete output with a nonempty delimited block beats a
differing diff. -/
theorem c6_precedence_amended_witness :
    extract_patch "log\n--- PATCH ---\ndiff --git a b\n--- END PATCH ---\ntail".data
      "other diff".data = "diff --git a b".data :=
  c6_precedence_amended
    "log\n--- PATCH ---\ndiff --git a b\n--- END PATCH ---\ntail".data
    "other diff".data "diff --git a b".data (by decide) (by decide)

/-- C8 counterexample: in the alternate invocation mode with no on-disk
environment file at all, a credential present in the parent environment
reaches the child untouched — it was never stripped and was not re-added
by parsing any file.  (The main mode, by contrast, does strip it.) -/
theorem c8_counterexample :
    child_env_full secretParent anthropicKey = none ∧
    child_env_run secretParent none anthropicKey = some "sk-secret".data := by
  constructor
  · simp [child_env_full, dpop]
  · simp [child_env_run, secretParent, dset]

/-- C8 (corrected): the main invocation mode strips ANTHROPIC_API_KEY from
the child environment for every launch; the alternate invocation mode
performs no stripping — the child inherits the full parent environment —
and overlays variables parsed from the optional on-disk environment file
as KEY=VALUE lines split on the first '=', with blank lines and lines
starting with '#' (and lines without '=') ignored. -/
theorem c8_credentials_amended (parent : EnvD) (lines : List (List Char))
    (d : EnvD) (line : List Char) :
    child_env_full parent anthropicKey = none ∧
    child_env_run parent none = parent ∧
    child_env_run parent (some lines) = lines.foldl apply_env_line parent ∧
    (pyStrip line = [] ∨ (pyStrip line).head? = some '#' ∨ '=' ∉ pyStrip line →
      apply_env_line d line = d) ∧
    (pyStrip line ≠ [] → (pyStrip line).head? ≠ some '#' → '=' ∈ pyStrip line →
      apply_env_line d line =
        dset d ((pyStrip line).takeWhile (fun ch => ch ≠ '='))
          (((pyStrip line).dropWhile (fun ch => ch ≠ '=')).tail)) := by
  refine ⟨by simp [child_env_full, dpop], rfl, rfl, ?_, ?_⟩
  · intro hd
    unfold apply_env_line
    rw [if_neg]
    rintro ⟨h1, h2, h3⟩
    rcases hd with hd | hd | hd
    · exact h1 hd
    · exact h2 hd
    · exact hd h3
  · intro h1 h2 h3
    unfold apply_env_line
    rw [if_pos ⟨h1, h2, h3⟩]

/-- C8 witness: the amended claim at a concrete parent environment and a
comment line. -/
theorem c8_credentials_amended_witness :
    child_env_full secretParent anthropicKey = none ∧
    apply_env_line secretParent "# ANTHROPIC_API_KEY=sk-other".data = secretParent :=
  ⟨(c8_credentials_amended secretParent [] secretParent
      "# ANTHROPIC_API_KEY=sk-other".data).1,
   (c8_credentials_amended secretParent [] secretParent
      "# ANTHROPIC_API_KEY=sk-other".data).2.2.2.1 (Or.inr (Or.inl (by decide)))⟩

/-- The output file holds the records of the attempted instances in
order, one each. -/
theorem run_loop_append (bs : List RBehavior) (file : List Prediction) :
    run_loop bs file =
      file ++ bs.map (fun b => run_instance b.iid b.cloneReturncode b.agent b.diff) := by
  induction bs generalizing file with
  | nil => simp [run_loop]
  | cons b rest ih => simp [run_loop, ih]

/-- C10 (confirmed): in the minimal invocation variant, every attempted
instance appends exactly one prediction record (the output file is the
per-instance record list in order); every record has model_name_or_path
"cognos-agent"; a clone failure (nonzero clone exit code) yields the
record with an empty model_patch; and that record is equal to the one
produced by a completed run that yielded no patch — the two outcomes are
indistinguishable in the output log. -/
theorem c10_minimal_records (bs : List RBehavior) (iid : String) (rc rc2 : Int)
    (agent agent2 : AgentOutcome) (diff : List Char) (hrc : rc ≠ 0) :
    run_loop bs [] =
      bs.map (fun b => run_instance b.iid b.cloneReturncode b.agent b.diff) ∧
    (run_instance iid rc2 agent2 diff).model_name_or_path = "cognos-agent" ∧
    run_instance iid rc agent diff = ⟨iid, "cognos-agent", []⟩ ∧
    run_instance iid rc agent diff =
      run_instance iid 0 (AgentOutcome.completed [] [] 0) [] := by
  refine ⟨by simpa using run_loop_append bs [], ?_, ?_, ?_⟩
  · unfold run_instance
    split
    · rfl
    · rfl
  · unfold run_instance
    rw [if_pos hrc]
  · unfold run_instance
    rw [if_pos hrc]
    have he : extract_patch [] [] = [] := by decide
    simp [he]

/-- C10 witness: a clone failure record at a concrete instance. -/
theorem c10_minimal_records_witness :
    run_instance "w10" 1 AgentOutcome.timedOut ['d'] = ⟨"w10", "cognos-agent", []⟩ :=
  (c10_minimal_records [] "w10" 1 0 AgentOutcome.timedOut AgentOutcome.timedOut ['d']
    (by decide)).2.2.1

end SweBenchRun
